import Mathlib

/-
Verification of the elasticsearch-bm25 retrieval service against its design
specification. The Python source is shallowly embedded: the external
Elasticsearch backend and the embedding provider appear as explicit function
parameters with an Except error channel, exception handlers become matches on
the error case, and the handler state (created indices, pending and visible
documents) is threaded explicitly. Relevance scores are modelled as rationals.
-/

namespace EsHandler

/-- Document metadata, a mapping of string keys to scalar values. -/
abbrev Metadata := List (String × String)

/-- A dense embedding vector. -/
abbrev Vec := List Rat

/-- Failure of the external embedding provider. -/
inductive EmbedError where
  | providerFailure
deriving DecidableEq

/-- Failure of a call to the Elasticsearch backend. -/
inductive BackendError where
  | connectionFailure
  | requestRejected
deriving DecidableEq

/-! ## Index settings and mappings, from ElasticsearchHandler._create_index -/

/-- A custom tokenizer definition in the analysis settings. -/
structure NoriTokenizerDef where
  typ : String
  user_dictionary : String
  decompound_mode : String
deriving DecidableEq

/-- A custom analyzer definition: a tokenizer name plus a filter chain. -/
structure AnalyzerDef where
  typ : String
  tokenizer : String
  filters : List String
deriving DecidableEq

/-- A part-of-speech filter definition with its stop tags. -/
structure PosFilterDef where
  typ : String
  stoptags : List String
deriving DecidableEq

/-- The analysis block of the index settings. -/
structure AnalysisSettings where
  tokenizers : List (String × NoriTokenizerDef)
  analyzers : List (String × AnalyzerDef)
  filters : List (String × PosFilterDef)
deriving DecidableEq

/-- A named BM25 similarity definition. -/
structure SimilarityDef where
  typ : String
  k1 : Rat
  b : Rat
deriving DecidableEq

/-- The settings dictionary passed to indices.create. -/
structure IndexSettings where
  analysis : AnalysisSettings
  similarity : List (String × SimilarityDef)
deriving DecidableEq

/-- Mapping of the text field content. -/
structure TextFieldMapping where
  typ : String
  analyzer : String
  similarity : String
deriving DecidableEq

/-- Mapping of the dense_vector field embedding. -/
structure VectorFieldMapping where
  typ : String
  dims : Nat
  index : Bool
  similarity : String
deriving DecidableEq

/-- The mappings dictionary passed to indices.create. -/
structure IndexMappings where
  content : TextFieldMapping
  embedding : VectorFieldMapping
deriving DecidableEq

/-- OpenAI embedding dimension fixed in the handler constructor. -/
def embedding_dim : Nat := 1536

/-- The settings literal built in _create_index: a custom tokenizer named
nori_user_dict with decompound_mode mixed, an analyzer nori_analyzer whose
tokenizer field is the plain string nori_tokenizer, a part-of-speech filter,
and a BM25 similarity bm25_korean with k1 = 1.2 and b = 0.75. -/
def createIndexSettings : IndexSettings :=
  { analysis :=
      { tokenizers :=
          [("nori_user_dict",
            { typ := "nori_tokenizer"
              user_dictionary := "userdict_ko.txt"
              decompound_mode := "mixed" })]
        analyzers :=
          [("nori_analyzer",
            { typ := "custom"
              tokenizer := "nori_tokenizer"
              filters := ["lowercase", "nori_part_of_speech", "nori_readingform"] })]
        filters :=
          [("nori_part_of_speech",
            { typ := "nori_part_of_speech"
              stoptags := ["E", "IC", "J", "MAG", "MAJ", "MM", "SP", "SSC", "SSO",
                           "SC", "SE", "XPN", "XSA", "XSN", "XSV", "UNA", "NA", "VSV"] })] }
    similarity :=
      [("bm25_korean", { typ := "BM25", k1 := 6/5, b := 3/4 })] }

/-- The mappings literal built in _create_index. -/
def createIndexMappings : IndexMappings :=
  { content := { typ := "text", analyzer := "nori_analyzer", similarity := "bm25_korean" }
    embedding := { typ := "dense_vector", dims := embedding_dim, index := true, similarity := "cosine" } }

/-! ## Backend state and index lifecycle, from _setup_index -/

/-- An index stored in the backend: its settings and mappings. -/
structure BackendIndex where
  settings : IndexSettings
  mappings : IndexMappings
deriving DecidableEq

/-- A document as stored by the bulk helper. -/
structure StoredDoc where
  content : String
  embedding : Vec
  metadata : Metadata
deriving DecidableEq

/-- Backend state: the created indices, plus documents that have been written
but not yet refreshed (pending) and documents visible to search (visible). -/
structure ESState where
  indices : List (String × BackendIndex)
  pending : List StoredDoc
  visible : List StoredDoc
deriving DecidableEq

/-- The backend exists check client.indices.exists. -/
def indicesExists (s : ESState) (name : String) : Bool :=
  (s.indices.lookup name).isSome

/-- The backend create call client.indices.create. -/
def indicesCreate (s : ESState) (name : String) (st : IndexSettings) (mp : IndexMappings) : ESState :=
  { s with indices := (name, ⟨st, mp⟩) :: s.indices }

/-- _create_index: creates the index with the Nori settings and mappings. -/
def create_index (s : ESState) (name : String) : ESState :=
  indicesCreate s name createIndexSettings createIndexMappings

/-- _setup_index: if the index exists, use it unchanged; otherwise create it. -/
def setup_index (s : ESState) (name : String) : ESState :=
  if indicesExists s name then s else create_index s name

/-- The empty backend state. -/
def emptyState : ESState := { indices := [], pending := [], visible := [] }

/-- A state in which the index documents already exists. -/
def stateWithIndex : ESState := create_index emptyState "documents"

theorem indicesExists_create (s : ESState) (n : String) :
    indicesExists (create_index s n) n = true := by
  simp [indicesExists, create_index, indicesCreate, List.lookup]

/-- C6: index setup is idempotent. When the target index already exists,
_setup_index returns with the state unchanged (no inspection result is used,
nothing is altered, duplicated or recreated), and a second call after a first
one is a no-op; the index is created only when absent. -/
theorem setup_index_idempotent (s s2 : ESState) (n : String)
    (h : indicesExists s n = true) :
    setup_index s n = s
    ∧ setup_index (setup_index s2 n) n = setup_index s2 n
    ∧ (indicesExists s2 n = false → setup_index s2 n = create_index s2 n) := by
  refine ⟨by simp [setup_index, h], ?_, ?_⟩
  · by_cases h2 : indicesExists s2 n
    · simp [setup_index, h2]
    · have hc := indicesExists_create s2 n
      simp [setup_index, h2, hc]
  · intro h2
    simp [setup_index, h2]

/-- Concrete instance of setup_index_idempotent on a state already holding the
documents index. -/
theorem setup_index_idempotent_witness :
    setup_index stateWithIndex "documents" = stateWithIndex
    ∧ setup_index (setup_index emptyState "documents") "documents"
        = setup_index emptyState "documents"
    ∧ (indicesExists emptyState "documents" = false →
        setup_index emptyState "documents" = create_index emptyState "documents") :=
  setup_index_idempotent stateWithIndex emptyState "documents" (by decide)

/-- C3: in the settings actually sent to indices.create, the analyzer
nori_analyzer is bound to the tokenizer name nori_tokenizer (the built-in
tokenizer, whose default decompound_mode is discard), while the custom
tokenizer nori_user_dict that sets decompound_mode mixed is defined but never
referenced by any analyzer: no custom tokenizer named nori_tokenizer exists in
the settings, so the analyzer used for indexing and query analysis does not
run with decompound_mode mixed. -/
theorem nori_analyzer_tokenizer_mismatch :
    (createIndexSettings.analysis.analyzers.lookup "nori_analyzer").map AnalyzerDef.tokenizer
      = some "nori_tokenizer"
    ∧ (createIndexSettings.analysis.tokenizers.lookup "nori_user_dict").map
        NoriTokenizerDef.decompound_mode = some "mixed"
    ∧ createIndexSettings.analysis.tokenizers.lookup "nori_tokenizer" = none
    ∧ createIndexMappings.content.analyzer = "nori_analyzer" := by
  refine ⟨rfl, rfl, ?_, rfl⟩
  decide

/-! ## Bulk upsert, from ElasticsearchHandler.insert_embeddings -/

/-- The batch call embeddings.embed_documents: one vector per input text, and
any single provider failure fails the whole batch call (it raises one
exception for the call, not per document). -/
def embed_documents (e : String → Except EmbedError Vec) (contents : List String) :
    Except EmbedError (List Vec) :=
  contents.mapM e

/-- Python zip over three sequences, truncating to the shortest. -/
def zip3 : List α → List β → List γ → List (α × β × γ)
  | a :: as, b :: bs, c :: cs => (a, b, c) :: zip3 as bs cs
  | _, _, _ => []

/-- The action list built by the loop over zip(contents, embeddings,
metadata_list). -/
def buildActions (contents : List String) (embs : List Vec) (metas : List Metadata) :
    List StoredDoc :=
  (zip3 contents embs metas).map fun t => ⟨t.1, t.2.1, t.2.2⟩

/-- The bulk helper: writes all actions, returning the success count; written
documents are not yet visible to search. -/
def bulkHelper (s : ESState) (actions : List StoredDoc) : Nat × ESState :=
  (actions.length, { s with pending := s.pending ++ actions })

/-- client.indices.refresh: pending writes become visible to search. -/
def indicesRefresh (s : ESState) : ESState :=
  { s with pending := [], visible := s.visible ++ s.pending }

/-- insert_embeddings: embed all contents in one batch call, build the action
list, bulk-write it, refresh the index and return True; any exception (here,
an embedding provider failure, raised before anything is written) is caught
and the call returns False with the backend untouched. -/
def insert_embeddings (e : String → Except EmbedError Vec) (s : ESState)
    (contents : List String) (metadata_list : List Metadata) : Bool × ESState :=
  match embed_documents e contents with
  | .error _ => (false, s)
  | .ok embeddings =>
    let actions := buildActions contents embeddings metadata_list
    let s1 := (bulkHelper s actions).2
    let s2 := indicesRefresh s1
    (true, s2)

/-- An embedding provider that fails on the text b and succeeds elsewhere. -/
def embedderFailingOnB : String → Except EmbedError Vec :=
  fun t => if t = "b" then .error .providerFailure else .ok [1]

/-- An embedding provider that always fails. -/
def failingEmbedder : String → Except EmbedError Vec :=
  fun _ => .error .providerFailure

/-- An embedding provider that always succeeds with a fixed vector. -/
def okEmbedder : String → Except EmbedError Vec :=
  fun _ => .ok [1]

/-- C1 counterexample: two documents of which exactly one fails to embed. The
claim requires succeeded = n-1 = 1 with one per-id failure entry; the code
instead returns False with the backend state untouched, so zero documents are
written and no per-id report exists (the return type is a plain bool). -/
theorem insert_embeddings_single_failure_counterexample :
    insert_embeddings embedderFailingOnB emptyState ["a", "b"] [[], []]
      = (false, emptyState)
    ∧ (insert_embeddings embedderFailingOnB emptyState ["a", "b"] [[], []]).2.visible.length ≠ 1 := by
  constructor
  · rfl
  · decide

/-- C1 as amended: an embedding failure for any document makes the batch
embed_documents call raise, which insert_embeddings catches, returning False
and writing nothing; there is no per-document partial success. -/
theorem insert_embeddings_batch_abort (e : String → Except EmbedError Vec)
    (s : ESState) (contents : List String) (metadata_list : List Metadata)
    (err : EmbedError) (h : embed_documents e contents = .error err) :
    insert_embeddings e s contents metadata_list = (false, s) := by
  unfold insert_embeddings
  rw [h]

/-- Concrete instance of insert_embeddings_batch_abort. -/
theorem insert_embeddings_batch_abort_witness :
    insert_embeddings embedderFailingOnB stateWithIndex ["a", "b"] [[], []]
      = (false, stateWithIndex) :=
  insert_embeddings_batch_abort embedderFailingOnB stateWithIndex ["a", "b"] [[], []]
    .providerFailure rfl

/-- C10: a successful insert_embeddings call refreshes the index after the
bulk write and before returning: it returns True, leaves no pending writes,
and every document of the write batch is visible to subsequent searches. -/
theorem insert_embeddings_refreshes (e : String → Except EmbedError Vec)
    (s : ESState) (contents : List String) (metadata_list : List Metadata)
    (embs : List Vec) (d : StoredDoc)
    (h : embed_documents e contents = .ok embs)
    (hd : d ∈ buildActions contents embs metadata_list) :
    (insert_embeddings e s contents metadata_list).1 = true
    ∧ (insert_embeddings e s contents metadata_list).2.pending = []
    ∧ d ∈ (insert_embeddings e s contents metadata_list).2.visible := by
  unfold insert_embeddings
  rw [h]
  refine ⟨rfl, rfl, ?_⟩
  simp only [bulkHelper, indicesRefresh, List.mem_append]
  exact Or.inr (Or.inr hd)

/-- Concrete instance of insert_embeddings_refreshes. -/
theorem insert_embeddings_refreshes_witness :
    (insert_embeddings okEmbedder emptyState ["hello"] [[("source", "test")]]).1 = true
    ∧ (insert_embeddings okEmbedder emptyState ["hello"] [[("source", "test")]]).2.pending = []
    ∧ (⟨"hello", [1], [("source", "test")]⟩ : StoredDoc)
        ∈ (insert_embeddings okEmbedder emptyState ["hello"] [[("source", "test")]]).2.visible :=
  insert_embeddings_refreshes okEmbedder emptyState ["hello"] [[("source", "test")]]
    [[1]] ⟨"hello", [1], [("source", "test")]⟩ rfl (by decide)

/-! ## Similarity search, from ElasticsearchHandler.search_similar -/

/-- The knn block of a search request. -/
structure KnnClause where
  field : String
  query_vector : Vec
  k : Nat
  num_candidates : Nat
  boost : Option Rat
deriving DecidableEq

/-- A match clause against the analyzed content field. -/
structure MatchClause where
  field : String
  query : String
  analyzer : String
  boost : Option Rat
deriving DecidableEq

/-- The three request shapes built by search_similar. -/
inductive ESQuery where
  | knnQuery (knn : KnnClause) (source : List String)
  | matchQuery (m : MatchClause) (size : Nat) (source : List String)
  | hybridQuery (should : List MatchClause) (knn : KnnClause) (size : Nat) (source : List String)
deriving DecidableEq

/-- The if/elif/else request construction in search_similar: vector mode
builds a pure knn request, bm25 mode a pure match request, and every other
search_type string falls into the hybrid else branch. -/
def buildSearchQuery (query_text : String) (query_embedding : Vec)
    (top_k : Nat) (search_type : String) : ESQuery :=
  if search_type = "vector" then
    .knnQuery
      { field := "embedding", query_vector := query_embedding,
        k := top_k, num_candidates := top_k * 10, boost := none }
      ["content", "metadata"]
  else if search_type = "bm25" then
    .matchQuery
      { field := "content", query := query_text, analyzer := "nori_analyzer", boost := none }
      top_k ["content", "metadata"]
  else
    .hybridQuery
      [{ field := "content", query := query_text, analyzer := "nori_analyzer", boost := some 1 }]
      { field := "embedding", query_vector := query_embedding,
        k := top_k, num_candidates := top_k * 10, boost := some 1 }
      top_k ["content", "metadata"]

/-- The projected source of a backend hit; both fields are read with .get and
may be absent. -/
structure HitSource where
  content : Option String
  metadata : Option Metadata
deriving DecidableEq

/-- A backend hit: identifier, relevance score and projected source. -/
structure Hit where
  id : String
  score : Rat
  source : HitSource
deriving DecidableEq

/-- The per-hit record appended to search_results. -/
structure SearchResult where
  id : String
  score : Rat
  content : Option String
  metadata : Option Metadata
deriving DecidableEq

/-- The loop body building one search result from one hit. -/
def hitToResult (h : Hit) : SearchResult :=
  { id := h.id, score := h.score, content := h.source.content, metadata := h.source.metadata }

/-- Stable descending insertion: walk past strictly higher scores and place
the new element before the first element whose score is not higher, hence
before every element of equal score already present. -/
def insertDesc (x : SearchResult) : List SearchResult → List SearchResult
  | [] => [x]
  | y :: ys => if x.score < y.score then y :: insertDesc x ys else x :: y :: ys

/-- The stable sort by score descending performed by
search_results.sort(key score, reverse True). -/
def sortByScoreDesc : List SearchResult → List SearchResult
  | [] => []
  | x :: xs => insertDesc x (sortByScoreDesc xs)

/-- search_similar: embed the query text (in every mode), build the request
for the given search_type, run it, convert the hits and sort them by score
descending; any exception (embedding failure or backend failure) is caught
and the empty list is returned. -/
def search_similar (e : String → Except EmbedError Vec)
    (backend : ESQuery → Except BackendError (List Hit))
    (query_text : String) (top_k : Nat) (search_type : String) : List SearchResult :=
  match e query_text with
  | .error _ => []
  | .ok query_embedding =>
    match backend (buildSearchQuery query_text query_embedding top_k search_type) with
    | .error _ => []
    | .ok hits => sortByScoreDesc (hits.map hitToResult)

/-! ## Text analysis, from ElasticsearchHandler.analyze_text -/

/-- One token object of an analyze response; only the token text is read. -/
structure AnalyzeToken where
  token : String
deriving DecidableEq

/-- The dictionary returned by analyze_text on success. -/
structure AnalyzeResult where
  original : String
  tokens : List String
  token_count : Nat
deriving DecidableEq

/-- analyze_text: run the analyze call with the nori_analyzer, project the
token texts and return them with their count; any exception is caught and the
empty dictionary (none) is returned. -/
def analyze_text (backend : String → Except BackendError (List AnalyzeToken))
    (text : String) : Option AnalyzeResult :=
  match backend text with
  | .error _ => none
  | .ok toks =>
    some { original := text, tokens := toks.map AnalyzeToken.token,
           token_count := (toks.map AnalyzeToken.token).length }

/-! ## Ordering and stability of the result sort -/

theorem mem_insertDesc (x a : SearchResult) (l : List SearchResult) :
    a ∈ insertDesc x l ↔ a = x ∨ a ∈ l := by
  induction l with
  | nil => simp [insertDesc]
  | cons y ys ih =>
    by_cases h : x.score < y.score
    · simp only [insertDesc, if_pos h, List.mem_cons, ih]
      tauto
    · simp only [insertDesc, if_neg h, List.mem_cons]

theorem pairwise_insertDesc (x : SearchResult) (l : List SearchResult)
    (hl : l.Pairwise (fun a b => b.score ≤ a.score)) :
    (insertDesc x l).Pairwise (fun a b => b.score ≤ a.score) := by
  induction l with
  | nil => simp [insertDesc]
  | cons y ys ih =>
    rcases List.pairwise_cons.mp hl with ⟨hy, hys⟩
    by_cases h : x.score < y.score
    · simp only [insertDesc, if_pos h]
      refine List.pairwise_cons.mpr ⟨?_, ih hys⟩
      intro b hb
      rcases (mem_insertDesc x b ys).mp hb with rfl | hb
      · exact le_of_lt h
      · exact hy b hb
    · simp only [insertDesc, if_neg h]
      refine List.pairwise_cons.mpr ⟨?_, hl⟩
      intro b hb
      rcases List.mem_cons.mp hb with rfl | hb
      · exact le_of_not_lt h
      · exact le_trans (hy b hb) (le_of_not_lt h)

theorem pairwise_sortByScoreDesc (l : List SearchResult) :
    (sortByScoreDesc l).Pairwise (fun a b => b.score ≤ a.score) := by
  induction l with
  | nil => simp [sortByScoreDesc]
  | cons x xs ih => exact pairwise_insertDesc x _ ih

theorem filter_insertDesc (sc : Rat) (x : SearchResult) (l : List SearchResult) :
    (insertDesc x l).filter (fun r => decide (r.score = sc))
      = if x.score = sc then x :: l.filter (fun r => decide (r.score = sc))
        else l.filter (fun r => decide (r.score = sc)) := by
  induction l with
  | nil =>
    by_cases hx : x.score = sc
    · simp [insertDesc, List.filter_cons, hx]
    · simp [insertDesc, List.filter_cons, hx]
  | cons y ys ih =>
    by_cases h : x.score < y.score
    · simp only [insertDesc]
      rw [if_pos h]
      by_cases hx : x.score = sc
      · have hy : ¬ (y.score = sc) := by
          intro hys
          rw [hx] at h
          rw [hys] at h
          exact lt_irrefl sc h
        simp [List.filter_cons, hx, hy, ih]
      · simp [List.filter_cons, hx, ih]
    · simp only [insertDesc]
      rw [if_neg h]
      by_cases hx : x.score = sc
      · simp [List.filter_cons, hx]
      · simp [List.filter_cons, hx]

theorem filter_sortByScoreDesc (sc : Rat) (l : List SearchResult) :
    (sortByScoreDesc l).filter (fun r => decide (r.score = sc))
      = l.filter (fun r => decide (r.score = sc)) := by
  induction l with
  | nil => rfl
  | cons x xs ih =>
    by_cases hx : x.score = sc <;>
      simp [sortByScoreDesc, filter_insertDesc, hx, ih, List.filter_cons]

/-- C5: on a successful search, the returned list is the stable descending
sort of the backend hits: adjacent scores are non-increasing (pairwise, hence
in particular at every adjacent position), and for any score value the
equal-score entries appear exactly in the order the backend returned them. -/
theorem search_results_sorted_stable (sc : Rat)
    (e : String → Except EmbedError Vec)
    (backend : ESQuery → Except BackendError (List Hit))
    (query_text : String) (top_k : Nat) (search_type : String)
    (vec : Vec) (hits : List Hit)
    (he : e query_text = .ok vec)
    (hb : backend (buildSearchQuery query_text vec top_k search_type) = .ok hits) :
    search_similar e backend query_text top_k search_type
        = sortByScoreDesc (hits.map hitToResult)
    ∧ (search_similar e backend query_text top_k search_type).Pairwise
        (fun a b => b.score ≤ a.score)
    ∧ (search_similar e backend query_text top_k search_type).filter
          (fun r => decide (r.score = sc))
        = (hits.map hitToResult).filter (fun r => decide (r.score = sc)) := by
  have hs : search_similar e backend query_text top_k search_type
      = sortByScoreDesc (hits.map hitToResult) := by
    simp only [search_similar, he, hb]
  refine ⟨hs, ?_, ?_⟩
  · rw [hs]
    exact pairwise_sortByScoreDesc _
  · rw [hs]
    exact filter_sortByScoreDesc sc _

/-- A hit with score 1. -/
def hitA : Hit := { id := "a", score := 1, source := { content := some "alpha", metadata := some [] } }

/-- A hit with score 3. -/
def hitB : Hit := { id := "b", score := 3, source := { content := some "beta", metadata := some [] } }

/-- A second hit with score 1, tied with hitA. -/
def hitC : Hit := { id := "c", score := 1, source := { content := some "gamma", metadata := some [] } }

/-- A backend returning three hits with a score tie. -/
def threeHitBackend : ESQuery → Except BackendError (List Hit) :=
  fun _ => .ok [hitA, hitB, hitC]

/-- Concrete instance of search_results_sorted_stable on a hit list with a
score tie. -/
theorem search_results_sorted_stable_witness :
    search_similar okEmbedder threeHitBackend "q" 5 "hybrid"
        = sortByScoreDesc ([hitA, hitB, hitC].map hitToResult)
    ∧ (search_similar okEmbedder threeHitBackend "q" 5 "hybrid").Pairwise
        (fun a b => b.score ≤ a.score)
    ∧ (search_similar okEmbedder threeHitBackend "q" 5 "hybrid").filter
          (fun r => decide (r.score = 1))
        = ([hitA, hitB, hitC].map hitToResult).filter (fun r => decide (r.score = 1)) :=
  search_results_sorted_stable 1 okEmbedder threeHitBackend "q" 5 "hybrid"
    [1] [hitA, hitB, hitC] rfl rfl

/-- C7: in vector mode the built request is a knn request with k equal to
top_k and num_candidates equal to top_k * 10, a candidate pool factor C = 10
satisfying C >= 10. -/
theorem vector_query_candidate_pool (query_text : String) (emb : Vec) (top_k : Nat)
    (h : 0 < top_k) :
    buildSearchQuery query_text emb top_k "vector"
      = .knnQuery
          { field := "embedding", query_vector := emb,
            k := top_k, num_candidates := top_k * 10, boost := none }
          ["content", "metadata"]
    ∧ (10 : Nat) ≥ 10 :=
  ⟨rfl, le_refl 10⟩

/-- Concrete instance of vector_query_candidate_pool at top_k = 5. -/
theorem vector_query_candidate_pool_witness :
    buildSearchQuery "q" [1] 5 "vector"
      = .knnQuery
          { field := "embedding", query_vector := [1],
            k := 5, num_candidates := 5 * 10, boost := none }
          ["content", "metadata"]
    ∧ (10 : Nat) ≥ 10 :=
  vector_query_candidate_pool "q" [1] 5 (by decide)

/-- C9: any search_type other than vector and bm25 falls through to the else
branch: the built request and the whole search behave exactly as in hybrid
mode, and no error is produced for an unrecognized mode. -/
theorem unrecognized_mode_runs_hybrid
    (e : String → Except EmbedError Vec)
    (backend : ESQuery → Except BackendError (List Hit))
    (query_text : String) (emb : Vec) (top_k : Nat) (search_type : String)
    (h1 : search_type ≠ "vector") (h2 : search_type ≠ "bm25") :
    buildSearchQuery query_text emb top_k search_type
      = buildSearchQuery query_text emb top_k "hybrid"
    ∧ search_similar e backend query_text top_k search_type
      = search_similar e backend query_text top_k "hybrid" := by
  have hq : ∀ v : Vec, buildSearchQuery query_text v top_k search_type
      = buildSearchQuery query_text v top_k "hybrid" := by
    intro v
    unfold buildSearchQuery
    rw [if_neg h1, if_neg h2]
    rfl
  refine ⟨hq emb, ?_⟩
  unfold search_similar
  cases e query_text with
  | error err => rfl
  | ok v =>
    dsimp only
    rw [hq v]

/-- Concrete instance of unrecognized_mode_runs_hybrid at the misspelled mode
string hybird. -/
theorem unrecognized_mode_runs_hybrid_witness :
    buildSearchQuery "q" [1] 3 "hybird" = buildSearchQuery "q" [1] 3 "hybrid"
    ∧ search_similar okEmbedder threeHitBackend "q" 3 "hybird"
      = search_similar okEmbedder threeHitBackend "q" 3 "hybrid" :=
  unrecognized_mode_runs_hybrid okEmbedder threeHitBackend "q" [1] 3 "hybird"
    (by decide) (by decide)

/-- A backend returning exactly one hit for any request. -/
def oneHitBackend : ESQuery → Except BackendError (List Hit) :=
  fun _ => .ok [hitA]

/-- C2 counterexample: in bm25 mode, against a backend that would return a
hit, an embedding provider failure changes the outcome from that hit to the
empty list, so pure-lexical mode does perform an embedding call and does not
succeed when embedding fails. -/
theorem bm25_mode_embedding_failure_counterexample :
    search_similar failingEmbedder oneHitBackend "q" 5 "bm25" = []
    ∧ search_similar okEmbedder oneHitBackend "q" 5 "bm25" = [hitToResult hitA] :=
  ⟨rfl, rfl⟩

/-- C2 as amended: search_similar embeds the query text before branching on
search_type, so every mode, bm25 included, performs the embedding call; when
embedding fails the call returns the empty list in every mode, and no typed
failure is raised. -/
theorem embedding_failure_fails_every_mode
    (e : String → Except EmbedError Vec)
    (backend : ESQuery → Except BackendError (List Hit))
    (query_text : String) (top_k : Nat) (search_type : String)
    (err : EmbedError) (h : e query_text = .error err) :
    search_similar e backend query_text top_k search_type = [] := by
  unfold search_similar
  rw [h]

/-- Concrete instance of embedding_failure_fails_every_mode in bm25 mode. -/
theorem embedding_failure_fails_every_mode_witness :
    search_similar failingEmbedder oneHitBackend "q" 3 "bm25" = [] :=
  embedding_failure_fails_every_mode failingEmbedder oneHitBackend "q" 3 "bm25"
    .providerFailure rfl

/-- A backend whose search call always fails. -/
def failingBackend : ESQuery → Except BackendError (List Hit) :=
  fun _ => .error .connectionFailure

/-- A backend whose search call succeeds with zero hits. -/
def emptyOkBackend : ESQuery → Except BackendError (List Hit) :=
  fun _ => .ok []

/-- An analyze backend that always fails. -/
def failingAnalyzeBackend : String → Except BackendError (List AnalyzeToken) :=
  fun _ => .error .connectionFailure

/-- C4 counterexample: a failing backend search yields exactly the same value
as a successful search with zero hits (the empty list), a failing analyze
call yields the empty dictionary, and a failing embedding during a bulk write
yields plain False: the errors are swallowed into generic empty successes,
not re-raised as typed failures. -/
theorem errors_swallowed_counterexample :
    search_similar okEmbedder failingBackend "q" 5 "hybrid" = []
    ∧ search_similar okEmbedder emptyOkBackend "q" 5 "hybrid" = []
    ∧ analyze_text failingAnalyzeBackend "text" = none
    ∧ (insert_embeddings failingEmbedder emptyState ["a"] [[]]).1 = false :=
  ⟨rfl, rfl, rfl, rfl⟩

/-- C4 as amended: errors in search, bulk write and text analysis are caught
inside the handler and swallowed: search_similar returns the empty list,
analyze_text returns the empty dictionary, and insert_embeddings returns
False with the state unchanged; no failure is re-raised to the caller. -/
theorem errors_swallowed
    (e : String → Except EmbedError Vec)
    (backend : ESQuery → Except BackendError (List Hit))
    (ab : String → Except BackendError (List AnalyzeToken))
    (em : String → Except EmbedError Vec)
    (query_text : String) (top_k : Nat) (search_type : String) (vec : Vec)
    (text : String) (s : ESState) (contents : List String) (metas : List Metadata)
    (err1 : BackendError) (err2 : BackendError) (err3 : EmbedError)
    (he : e query_text = .ok vec)
    (hb : ∀ q, backend q = .error err1)
    (ha : ab text = .error err2)
    (hm : embed_documents em contents = .error err3) :
    search_similar e backend query_text top_k search_type = []
    ∧ analyze_text ab text = none
    ∧ insert_embeddings em s contents metas = (false, s) := by
  refine ⟨?_, ?_, ?_⟩
  · simp only [search_similar, he, hb]
  · simp only [analyze_text, ha]
  · simp only [insert_embeddings, hm]

/-- Concrete instance of errors_swallowed. -/
theorem errors_swallowed_witness :
    search_similar okEmbedder failingBackend "q" 4 "hybrid" = []
    ∧ analyze_text failingAnalyzeBackend "sample" = none
    ∧ insert_embeddings failingEmbedder emptyState ["x"] [[]] = (false, emptyState) :=
  errors_swallowed okEmbedder failingBackend failingAnalyzeBackend failingEmbedder
    "q" 4 "hybrid" [1] "sample" emptyState ["x"] [[]]
    .connectionFailure .connectionFailure .providerFailure
    rfl (fun _ => rfl) rfl rfl

/-! ## REST search endpoint, from main.py search_documents -/

/-- The multi_match clause of the REST search: title boosted twice, content
unboosted, best_fields, auto fuzziness. -/
structure MultiMatchClause where
  query : String
  fields : List String
  match_type : String
  fuzziness : String
deriving DecidableEq

/-- An exact-match term clause used under bool.filter. -/
structure TermClause where
  field : String
  value : String
deriving DecidableEq

/-- The bool query body sent by search_documents: scoring clauses under must,
membership clauses under filter. -/
structure BoolQueryBody where
  must : List MultiMatchClause
  filter : List TermClause
  size : Nat
  source : List String
deriving DecidableEq

/-- The query_body construction in search_documents: always one multi_match
must clause; when a category is supplied, a term filter clause on the keyword
field category is added and nothing else changes. -/
def buildQueryBody (q : String) (size : Nat) (category : Option String) : BoolQueryBody :=
  let base : BoolQueryBody :=
    { must := [{ query := q, fields := ["title^2", "content"],
                 match_type := "best_fields", fuzziness := "AUTO" }]
      filter := []
      size := size
      source := ["title", "content", "category"] }
  match category with
  | none => base
  | some c => { base with filter := [{ field := "category", value := c }] }

/-- A document of the documents index of main.py. -/
structure MainDoc where
  id : String
  title : String
  content : String
  category : Option String
deriving DecidableEq

/-- A hit returned for the REST search: identifier, score and source. -/
structure MainHit where
  id : String
  score : Rat
  doc : MainDoc
deriving DecidableEq

/-- Exact-match semantics of a term clause; category is the only keyword
field in the mapping of main.py. -/
def termMatches (d : MainDoc) (t : TermClause) : Bool :=
  if t.field = "category" then decide (d.category = some t.value) else false

/-- Modelled from the spec: the search engine executing a bool query is an
external collaborator, absent from src. Per the spec, a term clause under
bool.filter is evaluated in filter context and is an exact-match membership
constraint only: it never contributes to the relevance score, which is
computed from the scoring (must) clauses alone. The lexical scoring and
matching of the must clauses are arbitrary parameters, since BM25 scoring
itself is out of scope. -/
def execBoolSearch (score : MainDoc → MultiMatchClause → Rat)
    (lexMatch : MainDoc → MultiMatchClause → Bool)
    (docs : List MainDoc) (qb : BoolQueryBody) : List MainHit :=
  (docs.filter fun d =>
      qb.must.all (fun m => lexMatch d m) && qb.filter.all (fun t => termMatches d t)).map
    fun d => { id := d.id, score := (qb.must.map (score d)).sum, doc := d }

/-- C8: with a category filter, every returned hit is a document whose
category equals the filter value, and the very same hit (same document, same
score) is returned by the unfiltered search: the filter decides membership
only and never changes a relevance score. -/
theorem category_filter_membership_only
    (score : MainDoc → MultiMatchClause → Rat)
    (lexMatch : MainDoc → MultiMatchClause → Bool)
    (docs : List MainDoc) (q : String) (size : Nat) (c : String) (h : MainHit)
    (hmem : h ∈ execBoolSearch score lexMatch docs (buildQueryBody q size (some c))) :
    h.doc.category = some c
    ∧ h ∈ execBoolSearch score lexMatch docs (buildQueryBody q size none) := by
  simp only [execBoolSearch, buildQueryBody, List.mem_map, List.mem_filter] at hmem ⊢
  rcases hmem with ⟨d, ⟨hd, hp⟩, rfl⟩
  rw [Bool.and_eq_true] at hp
  rcases hp with ⟨hmust, hfil⟩
  simp [termMatches] at hfil
  refine ⟨hfil, ?_⟩
  refine ⟨d, ⟨hd, ?_⟩, rfl⟩
  simp only [List.all_nil, Bool.and_true]
  exact hmust

/-- A document in the programming category. -/
def docA : MainDoc := { id := "1", title := "t1", content := "c1", category := some "programming" }

/-- A document in the web category. -/
def docB : MainDoc := { id := "2", title := "t2", content := "c2", category := some "web" }

/-- A constant lexical scoring function. -/
def constScore : MainDoc → MultiMatchClause → Rat := fun _ _ => 2

/-- A lexical match predicate accepting every document. -/
def allMatch : MainDoc → MultiMatchClause → Bool := fun _ _ => true

/-- Concrete instance of category_filter_membership_only. -/
theorem category_filter_membership_only_witness :
    (MainHit.mk "1" 2 docA).doc.category = some "programming"
    ∧ MainHit.mk "1" 2 docA
        ∈ execBoolSearch constScore allMatch [docA, docB] (buildQueryBody "q" 10 none) :=
  category_filter_membership_only constScore allMatch [docA, docB] "q" 10 "programming"
    (MainHit.mk "1" 2 docA)
    (by simp [execBoolSearch, buildQueryBody, termMatches, docA, docB, constScore, allMatch,
              List.filter])

end EsHandler
